import Mathlib

/-!
A shallow embedding of the glogrus2 request-logging middleware
(`src/glogrus.go`) and proofs of its specified properties.

The middleware wraps an HTTP handler: it emits a "req_start" structured
log record, delegates to the wrapped handler through a writer proxy that
captures the response status, finalizes the status (defaulting to 200),
and emits a "req_served" record with the captured status and the latency.

Modelling choices:
- A structured log record is a list of (field name, value) pairs plus an
  event name and a level, mirroring `l.WithFields(logrus.Fields{...}).Info(ev)`.
- The wrapped handler is a function from the request to the list of
  writer operations it performs plus its result: normal return with the
  (possibly mutated) request object, or abnormal termination (a Go panic),
  embedded as `Except`.
- The request-id resolver may likewise fail (panic), embedded as `Except`;
  the middleware has no recover, so failures short-circuit.
- Wall-clock times are nanosecond counts (`Nat`), matching the Go monotonic
  clock reading where `time.Since` is non-negative.
- The serve function returns a trace of observable events: log emissions
  and the (single) invocation of the wrapped handler, in program order.
-/

namespace Glogrus

/-- A request context, as an association list of values (`context.Context`). -/
abbrev Ctx := List (String × String)

/-- The per-request data the middleware reads: `r.RequestURI`, `r.Method`,
`r.RemoteAddr` and `r.Context()`. -/
structure Request where
  requestURI : String
  method : String
  remoteAddr : String
  ctx : Ctx
deriving DecidableEq, Repr

/-- A structured log field value: logrus fields here are strings or the
integer status. -/
inductive FieldVal where
  | str (s : String)
  | int (n : Int)
deriving DecidableEq, Repr

/-- Log level; the middleware only ever logs at info level. -/
inductive Level where
  | info
deriving DecidableEq, Repr

/-- One structured log record: `l.WithFields(fields).Info(event)`. -/
structure LogEntry where
  level : Level
  event : String
  fields : List (String × FieldVal)
deriving DecidableEq, Repr

/-- An operation the handler performs on its `http.ResponseWriter`:
`WriteHeader(code)` or `Write(bytes)`. -/
inductive WAct where
  | writeHeader (code : Int)
  | write (bytes : List Nat)
deriving DecidableEq, Repr

/-- Modelled from the spec: the ResponseObserver (the writer proxy behind
`wrapWriter`, `maybeWriteHeader` and `status()` in `glogrus.go`, whose
defining source file is not under src/). It wraps one response writer,
holding a mutable status-written flag and the captured status code; `sent`
records the operations forwarded to the underlying writer, in order. -/
structure WriterProxy where
  wroteHeader : Bool
  code : Int
  sent : List WAct
deriving DecidableEq, Repr

/-- Modelled from the spec: `wrapWriter(w)` produces a fresh observer with
no status captured yet. -/
def wrapWriter : WriterProxy :=
  { wroteHeader := false, code := 0, sent := [] }

/-- Modelled from the spec: `WriteHeader(code)` forwards `code` to the
underlying writer and records it as the captured status, first call wins
(idempotent from the logging perspective). -/
def WriterProxy.writeHeaderOp (b : WriterProxy) (c : Int) : WriterProxy :=
  if b.wroteHeader then
    { b with sent := b.sent ++ [WAct.writeHeader c] }
  else
    { wroteHeader := true, code := c, sent := b.sent ++ [WAct.writeHeader c] }

/-- Modelled from the spec: `maybeWriteHeader()` (FinalizeIfUnset) records
and sends status 200 if no status was written yet, and is a no-op
otherwise. -/
def WriterProxy.maybeWriteHeader (b : WriterProxy) : WriterProxy :=
  if b.wroteHeader then b else b.writeHeaderOp 200

/-- Modelled from the spec: `Write(bytes)` records status 200 first when no
status has been written, then forwards the body bytes. -/
def WriterProxy.writeOp (b : WriterProxy) (bs : List Nat) : WriterProxy :=
  let b := b.maybeWriteHeader
  { b with sent := b.sent ++ [WAct.write bs] }

/-- Modelled from the spec: `status()` returns the captured status code. -/
def WriterProxy.status (b : WriterProxy) : Int :=
  b.code

/-- Run a sequence of handler writer operations through the observer. -/
def runActs (b : WriterProxy) : List WAct → WriterProxy
  | [] => b
  | WAct.writeHeader c :: rest => runActs (b.writeHeaderOp c) rest
  | WAct.write bs :: rest => runActs (b.writeOp bs) rest

/-- What one invocation of the wrapped handler does: the writer operations
it performs, and either a normal return carrying the final
state, or abnormal termination (panic) carrying a description. -/
structure HandlerRun where
  acts : List WAct
  result : Except String Request
deriving Repr

/-- The wrapped handler (`h http.Handler`). -/
abbrev Handler := Request → HandlerRun

/-- The request-id resolver `func(context.Context) string`; a call may
terminate abnormally (panic), which the middleware does not catch. -/
abbrev Resolver := Ctx → Except String String

/-- `emptyRequestId` from `glogrus.go`: always returns the empty string. -/
def emptyRequestId : Resolver := fun _ => Except.ok ("")

/-- A digit character; `digitChar n` is the decimal digit of `n % 10`. -/
def digitChar (n : Nat) : Char :=
  Char.ofNat (48 + n % 10)

/-- Little-endian decimal digits of a natural number (empty for 0). -/
def natDecRev : Nat → List Char
  | 0 => []
  | n + 1 => digitChar ((n + 1) % 10) :: natDecRev ((n + 1) / 10)
decreasing_by exact Nat.div_lt_self (Nat.succ_pos n) (by decide)

/-- Decimal rendering of a natural number. -/
def natDec (n : Nat) : String :=
  if n = 0 then ("0") else String.mk (natDecRev n).reverse

/-- Zero-padded 4-digit decimal rendering of `n % 10000`. -/
def pad4 (n : Nat) : String :=
  String.mk [digitChar (n / 1000), digitChar (n / 100), digitChar (n / 10), digitChar n]

/-- The latency in units of 10^-4 milliseconds: `float64(ns)/float64(1e6)`
rounded to 4 decimal places (round half to even), modelled exactly over
the nanosecond count. -/
def latE4 (ns : Nat) : Nat :=
  let q := ns / 100
  let r := ns % 100
  if r < 50 then q
  else if 50 < r then q + 1
  else if q % 2 = 0 then q else q + 1

/-- `fmt.Sprintf("%6.4f ms", latency)` for a non-negative latency: the
decimal rendering with exactly 4 digits after the decimal point followed
by " ms" (a non-negative value printed with 4 decimals is at least 6
characters wide, so the width-6 flag never pads). -/
def fmtLatency (ns : Nat) : String :=
  natDec (latE4 ns / 10000) ++ "." ++ pad4 (latE4 ns % 10000) ++ " ms"

/-- The fields of the "req_start" record, in source order. -/
def startFields (reqID : String) (r : Request) : List (String × FieldVal) :=
  [("req_id", FieldVal.str reqID), ("uri", FieldVal.str r.requestURI),
   ("method", FieldVal.str r.method), ("remote", FieldVal.str r.remoteAddr)]

/-- The fields of the "req_served" record, in source order; the request
fields are read from the request object after the handler returned. -/
def servedFields (reqID : String) (st : Int) (r : Request) (latNs : Nat)
    (name : String) : List (String × FieldVal) :=
  [("req_id", FieldVal.str reqID), ("status", FieldVal.int st),
   ("method", FieldVal.str r.method), ("uri", FieldVal.str r.requestURI),
   ("remote", FieldVal.str r.remoteAddr),
   ("latency", FieldVal.str (fmtLatency latNs)), ("app", FieldVal.str name)]

/-- An observable event of the processing of one request: a log emission or the
invocation of the wrapped handler, in program order. -/
inductive TraceEv where
  | log (e : LogEntry)
  | callHandler
deriving DecidableEq, Repr

/-- The outcome of serving one request: the observable trace, and either
the final observer state (normal completion) or the propagated abnormal
termination. -/
structure ServeResult where
  trace : List TraceEv
  result : Except String WriterProxy
deriving Repr

/-- The request-handling function built by `NewGlogrusWithReqId(l, name,
reqidf)` applied to a handler `h`, serving one request `r` with start time
`startNs` and completion time `nowNs` (nanoseconds). Mirrors lines 73-101
of `glogrus.go`: resolve the request id, emit "req_start", wrap the
writer, delegate to `h`, finalize the status, compute the latency, emit
"req_served". There is no recover: an abnormal resolver or handler
termination propagates and cuts the trace short. -/
def NewGlogrusWithReqId (name : String) (reqidf : Resolver) (h : Handler)
    (r : Request) (startNs nowNs : Nat) : ServeResult :=
  match reqidf r.ctx with
  | Except.error e => { trace := [], result := Except.error e }
  | Except.ok reqID =>
    let startLog : LogEntry :=
      { level := Level.info, event := "req_start", fields := startFields reqID r }
    let run := h r
    let lresp := runActs wrapWriter run.acts
    match run.result with
    | Except.error e =>
      { trace := [TraceEv.log startLog, TraceEv.callHandler],
        result := Except.error e }
    | Except.ok req2 =>
      let lresp := lresp.maybeWriteHeader
      let latNs := nowNs - startNs
      let servedLog : LogEntry :=
        { level := Level.info, event := "req_served",
          fields := servedFields reqID lresp.status req2 latNs name }
      { trace := [TraceEv.log startLog, TraceEv.callHandler, TraceEv.log servedLog],
        result := Except.ok lresp }

/-- `NewGlogrus(l, name)`: the default constructor, which supplies the
`emptyRequestId` resolver. -/
def NewGlogrus (name : String) : Handler → Request → Nat → Nat → ServeResult :=
  NewGlogrusWithReqId name emptyRequestId

/-- The log records of a trace, in emission order. -/
def logsOf (t : List TraceEv) : List LogEntry :=
  t.filterMap fun e =>
    match e with
    | TraceEv.log l => some l
    | TraceEv.callHandler => none

/-- How many records of a trace carry the given event name. -/
def countEvent (logs : List LogEntry) (ev : String) : Nat :=
  (logs.filter fun e => e.event == ev).length

/-- How many times a trace invokes the wrapped handler. -/
def countCalls (t : List TraceEv) : Nat :=
  (t.filter fun e => e == TraceEv.callHandler).length

/-- The value of a field in a log record (the first binding wins). -/
def fieldOf (e : LogEntry) (k : String) : Option FieldVal :=
  (e.fields.find? fun p => p.1 == k).map fun p => p.2

/-- The status the spec assigns to a sequence of handler writer
operations: the first status code explicitly set, 200 if body bytes were
written without setting one first, 200 if nothing was written at all. -/
def firstStatus : List WAct → Int
  | [] => 200
  | WAct.writeHeader c :: _ => c
  | WAct.write _ :: _ => 200

end Glogrus

namespace Glogrus

/-- Once a status has been recorded, no later writer operation changes the
captured status or resets the flag. -/
theorem runActs_locked (acts : List WAct) : ∀ b : WriterProxy,
    b.wroteHeader = true →
    (runActs b acts).wroteHeader = true ∧ (runActs b acts).code = b.code := by
  induction acts with
  | nil => exact fun b hb => ⟨hb, rfl⟩
  | cons a rest ih =>
    intro b hb
    cases a with
    | writeHeader c =>
      rw [runActs]
      obtain ⟨h1, h2⟩ := ih (b.writeHeaderOp c)
        (by simp [WriterProxy.writeHeaderOp, hb])
      exact ⟨h1, by rw [h2]; simp [WriterProxy.writeHeaderOp, hb]⟩
    | write bs =>
      rw [runActs]
      obtain ⟨h1, h2⟩ := ih (b.writeOp bs)
        (by simp [WriterProxy.writeOp, WriterProxy.maybeWriteHeader, hb])
      exact ⟨h1, by
        rw [h2]
        simp [WriterProxy.writeOp, WriterProxy.maybeWriteHeader, hb]⟩

/-- The finalized captured status of a fresh observer run over the
writer operations of the handler is exactly the status the spec assigns. -/
theorem status_eq_firstStatus (acts : List WAct) :
    ((runActs wrapWriter acts).maybeWriteHeader).status = firstStatus acts := by
  cases acts with
  | nil => decide
  | cons a rest =>
    cases a with
    | writeHeader c =>
      rw [runActs]
      have hb : (wrapWriter.writeHeaderOp c).wroteHeader = true ∧
          (wrapWriter.writeHeaderOp c).code = c := by
        simp [WriterProxy.writeHeaderOp, wrapWriter]
      obtain ⟨h1, h2⟩ := runActs_locked rest _ hb.1
      simp [WriterProxy.maybeWriteHeader, WriterProxy.status, h1, h2, hb.2,
        firstStatus]
    | write bs =>
      rw [runActs]
      have hb : (wrapWriter.writeOp bs).wroteHeader = true ∧
          (wrapWriter.writeOp bs).code = 200 := by
        simp [WriterProxy.writeOp, WriterProxy.maybeWriteHeader,
          WriterProxy.writeHeaderOp, wrapWriter]
      obtain ⟨h1, h2⟩ := runActs_locked rest _ hb.1
      simp [WriterProxy.maybeWriteHeader, WriterProxy.status, h1, h2, hb.2,
        firstStatus]

/-- C1: for every request whose resolver succeeds and whose handler
returns normally, the status field of the req_served record equals the
first status code the handler explicitly set, or 200 if it wrote body
bytes without setting a status first, or 200 if it wrote nothing. -/
theorem c1_captured_status (name : String) (reqidf : Resolver) (h : Handler)
    (r : Request) (startNs nowNs : Nat) (reqID : String) (req2 : Request)
    (hres : reqidf r.ctx = Except.ok reqID)
    (hret : (h r).result = Except.ok req2) :
    ∃ served : LogEntry,
      (NewGlogrusWithReqId name reqidf h r startNs nowNs).trace.getLast? =
        some (TraceEv.log served) ∧
      served.event = "req_served" ∧
      fieldOf served ("status") = some (FieldVal.int (firstStatus (h r).acts)) := by
  refine ⟨{ level := Level.info,
            event := "req_served",
            fields := servedFields reqID
              ((runActs wrapWriter (h r).acts).maybeWriteHeader).status
              req2 (nowNs - startNs) name },
          ?_, rfl, ?_⟩
  · simp only [NewGlogrusWithReqId, hres, hret]
    rfl
  · simp [fieldOf, servedFields, status_eq_firstStatus]

/-- Concrete instance of `c1_captured_status`: a handler that sets 404. -/
def wHandler404 : Handler := fun r =>
  { acts := [WAct.writeHeader 404], result := Except.ok r }

/-- A concrete request used by the witnesses. -/
def wReq : Request :=
  { requestURI := "/ping", method := "GET", remoteAddr := "10.0.0.1:333", ctx := [] }

/-- Witness for C1 at a concrete handler, request and times. -/
theorem c1_captured_status_witness :
    ∃ served : LogEntry,
      (NewGlogrusWithReqId ("my-app") emptyRequestId wHandler404 wReq 0 1000000).trace.getLast? =
        some (TraceEv.log served) ∧
      served.event = "req_served" ∧
      fieldOf served ("status") = some (FieldVal.int (firstStatus (wHandler404 wReq).acts)) :=
  c1_captured_status ("my-app") emptyRequestId wHandler404 wReq 0 1000000 ("") wReq rfl rfl

/-- C4: the observer records a status at most once (the first status set
wins, and later operations never change the captured code), and finalize
is a no-op when a status was captured, otherwise it records and sends 200
exactly once. -/
theorem c4_status_once (b : WriterProxy) (c : Int) (acts : List WAct) :
    ((b.writeHeaderOp c).wroteHeader = true) ∧
    (b.wroteHeader = true → (runActs b acts).code = b.code) ∧
    (b.wroteHeader = true → b.maybeWriteHeader = b) ∧
    (b.wroteHeader = false →
      b.maybeWriteHeader.code = 200 ∧ b.maybeWriteHeader.wroteHeader = true ∧
      b.maybeWriteHeader.sent = b.sent ++ [WAct.writeHeader 200]) := by
  refine ⟨?_, ?_, ?_, ?_⟩
  · by_cases hb : b.wroteHeader <;> simp [WriterProxy.writeHeaderOp, hb]
  · intro hb; exact (runActs_locked acts b hb).2
  · intro hb; simp [WriterProxy.maybeWriteHeader, hb]
  · intro hb
    simp [WriterProxy.maybeWriteHeader, WriterProxy.writeHeaderOp, hb]

/-- Witness for C4 at concrete observer states: a 404 already recorded
survives a later 500, and finalize on a fresh observer records 200. -/
theorem c4_status_once_witness :
    (runActs { wroteHeader := true, code := 404, sent := [] }
      [WAct.writeHeader 500]).code = 404 ∧
    (WriterProxy.maybeWriteHeader
      { wroteHeader := false, code := 0, sent := [] }).code = 200 :=
  ⟨(c4_status_once { wroteHeader := true, code := 404, sent := [] } 500
      [WAct.writeHeader 500]).2.1 rfl,
   ((c4_status_once { wroteHeader := false, code := 0, sent := [] } 0 []).2.2.2
      rfl).1⟩

end Glogrus

namespace Glogrus

/-- C2: for every request whose resolver succeeds (so the wrapped handler
is invoked), exactly one req_start record is emitted, before the handler
invocation; exactly one req_served record is emitted after a normal
return, and none when the handler terminates abnormally. -/
theorem c2_two_records (name : String) (reqidf : Resolver) (h : Handler)
    (r : Request) (startNs nowNs : Nat) (reqID : String)
    (hres : reqidf r.ctx = Except.ok reqID) :
    ∃ e1 : LogEntry, e1.event = "req_start" ∧
      (NewGlogrusWithReqId name reqidf h r startNs nowNs).trace.take 2 =
        [TraceEv.log e1, TraceEv.callHandler] ∧
      countEvent (logsOf (NewGlogrusWithReqId name reqidf h r startNs nowNs).trace)
          "req_start" = 1 ∧
      (∀ req2, (h r).result = Except.ok req2 →
        ∃ e2 : LogEntry, e2.event = "req_served" ∧
          (NewGlogrusWithReqId name reqidf h r startNs nowNs).trace =
            [TraceEv.log e1, TraceEv.callHandler, TraceEv.log e2]) ∧
      (∀ err, (h r).result = Except.error err →
        (NewGlogrusWithReqId name reqidf h r startNs nowNs).trace =
          [TraceEv.log e1, TraceEv.callHandler]) ∧
      countEvent (logsOf (NewGlogrusWithReqId name reqidf h r startNs nowNs).trace)
          "req_served" =
        (match (h r).result with
         | Except.ok _ => 1
         | Except.error _ => 0) := by
  refine ⟨{ level := Level.info, event := "req_start", fields := startFields reqID r },
    rfl, ?_, ?_, ?_, ?_, ?_⟩
  · cases hr : (h r).result with
    | error err => simp only [NewGlogrusWithReqId, hres, hr]; rfl
    | ok req2 => simp only [NewGlogrusWithReqId, hres, hr]; rfl
  · cases hr : (h r).result with
    | error err => simp only [NewGlogrusWithReqId, hres, hr]; rfl
    | ok req2 => simp only [NewGlogrusWithReqId, hres, hr]; rfl
  · intro req2 hr
    refine ⟨{ level := Level.info,
              event := "req_served",
              fields := servedFields reqID
                ((runActs wrapWriter (h r).acts).maybeWriteHeader).status
                req2 (nowNs - startNs) name },
            rfl, ?_⟩
    simp only [NewGlogrusWithReqId, hres, hr]
  · intro err hr
    simp only [NewGlogrusWithReqId, hres, hr]
  · cases hr : (h r).result with
    | error err => simp only [NewGlogrusWithReqId, hres, hr]; rfl
    | ok req2 => simp only [NewGlogrusWithReqId, hres, hr]; rfl

/-- Witness for C2 at a concrete resolver, handler, request and times. -/
theorem c2_two_records_witness :
    ∃ e1 : LogEntry, e1.event = "req_start" ∧
      (NewGlogrusWithReqId ("my-app") emptyRequestId wHandler404 wReq 0 5).trace.take 2 =
        [TraceEv.log e1, TraceEv.callHandler] ∧
      countEvent (logsOf (NewGlogrusWithReqId ("my-app") emptyRequestId wHandler404 wReq 0 5).trace)
          "req_start" = 1 ∧
      (∀ req2, (wHandler404 wReq).result = Except.ok req2 →
        ∃ e2 : LogEntry, e2.event = "req_served" ∧
          (NewGlogrusWithReqId ("my-app") emptyRequestId wHandler404 wReq 0 5).trace =
            [TraceEv.log e1, TraceEv.callHandler, TraceEv.log e2]) ∧
      (∀ err, (wHandler404 wReq).result = Except.error err →
        (NewGlogrusWithReqId ("my-app") emptyRequestId wHandler404 wReq 0 5).trace =
          [TraceEv.log e1, TraceEv.callHandler]) ∧
      countEvent (logsOf (NewGlogrusWithReqId ("my-app") emptyRequestId wHandler404 wReq 0 5).trace)
          "req_served" =
        (match (wHandler404 wReq).result with
         | Except.ok _ => 1
         | Except.error _ => 0) :=
  c2_two_records ("my-app") emptyRequestId wHandler404 wReq 0 5 ("") rfl

/-- C3: the req_start record carries exactly the fields req_id, uri,
method, remote and the req_served record exactly req_id, status, method,
uri, remote, latency, app, both at info level under those event names. -/
theorem c3_record_shape (name : String) (reqidf : Resolver) (h : Handler)
    (r : Request) (startNs nowNs : Nat) (reqID : String) (req2 : Request)
    (hres : reqidf r.ctx = Except.ok reqID)
    (hret : (h r).result = Except.ok req2) :
    ∃ e1 e2 : LogEntry,
      logsOf (NewGlogrusWithReqId name reqidf h r startNs nowNs).trace = [e1, e2] ∧
      e1.level = Level.info ∧ e1.event = "req_start" ∧
      e1.fields.map Prod.fst = ["req_id", "uri", "method", "remote"] ∧
      e2.level = Level.info ∧ e2.event = "req_served" ∧
      e2.fields.map Prod.fst =
        ["req_id", "status", "method", "uri", "remote", "latency", "app"] := by
  refine ⟨{ level := Level.info, event := "req_start", fields := startFields reqID r },
          { level := Level.info,
            event := "req_served",
            fields := servedFields reqID
              ((runActs wrapWriter (h r).acts).maybeWriteHeader).status
              req2 (nowNs - startNs) name },
          ?_, rfl, rfl, rfl, rfl, rfl, rfl⟩
  simp only [NewGlogrusWithReqId, hres, hret]
  rfl

/-- Witness for C3 at a concrete resolver, handler, request and times. -/
theorem c3_record_shape_witness :
    ∃ e1 e2 : LogEntry,
      logsOf (NewGlogrusWithReqId ("my-app") emptyRequestId wHandler404 wReq 0 5).trace = [e1, e2] ∧
      e1.level = Level.info ∧ e1.event = "req_start" ∧
      e1.fields.map Prod.fst = ["req_id", "uri", "method", "remote"] ∧
      e2.level = Level.info ∧ e2.event = "req_served" ∧
      e2.fields.map Prod.fst =
        ["req_id", "status", "method", "uri", "remote", "latency", "app"] :=
  c3_record_shape ("my-app") emptyRequestId wHandler404 wReq 0 5 ("") wReq rfl rfl

/-- Follows the words of the spec for the refinement claim C8: the resolver
that returns the empty string for every context. -/
def specEmptyResolver : Resolver := fun _ => Except.ok ("")

/-- C8: the middleware built by the default constructor behaves
identically to the one built with the resolver returning the empty string
for every context. -/
theorem c8_default_constructor_equiv (name : String) (h : Handler) (r : Request)
    (startNs nowNs : Nat) :
    NewGlogrus name h r startNs nowNs =
      NewGlogrusWithReqId name specEmptyResolver h r startNs nowNs := rfl

/-- A middleware instance: the state the returned closure captures from
`NewGlogrusWithReqId` (the logger sink being abstracted into the trace). -/
structure MiddlewareInst where
  name : String
  reqidf : Resolver

/-- Serving one request through an instance: the closure body reads the
captured state but never writes it, so the instance comes back unchanged
next to the per-request result. -/
def MiddlewareInst.serve (m : MiddlewareInst) (h : Handler) (r : Request)
    (startNs nowNs : Nat) : MiddlewareInst × ServeResult :=
  (m, NewGlogrusWithReqId m.name m.reqidf h r startNs nowNs)

/-- One request: its handler, request data and timing. -/
structure ReqJob where
  h : Handler
  r : Request
  startNs : Nat
  nowNs : Nat

/-- Serving a sequence of requests through the same instance, threading
the instance state from each request to the next. -/
def serveAll (m : MiddlewareInst) : List ReqJob → List ServeResult
  | [] => []
  | j :: rest =>
    let p := m.serve j.h j.r j.startNs j.nowNs
    p.2 :: serveAll p.1 rest

/-- C9: requests served through one middleware instance do not influence
each other: the records of every request are exactly those of serving it alone
on the pristine instance, a function of its own request data, handler
behavior and timing only. -/
theorem c9_no_cross_contamination (m : MiddlewareInst) (jobs : List ReqJob) :
    serveAll m jobs =
      jobs.map fun j => (m.serve j.h j.r j.startNs j.nowNs).2 := by
  induction jobs with
  | nil => rfl
  | cons j rest ih => simp [serveAll, MiddlewareInst.serve] at ih ⊢; exact ih

end Glogrus

namespace Glogrus

/-- Digit characters are decimal digits. -/
theorem digitChar_isDigit (n : Nat) : (digitChar n).isDigit = true := by
  have hlt : n % 10 < 10 := Nat.mod_lt _ (by decide)
  unfold digitChar
  set m := n % 10 with hm
  interval_cases m <;> decide

/-- Every character of the little-endian digit list is a decimal digit. -/
theorem natDecRev_digits : ∀ n : Nat, ∀ ch ∈ natDecRev n, ch.isDigit = true := by
  intro n
  induction n using Nat.strong_induction_on with
  | _ n ih =>
    cases n with
    | zero => intro ch hch; simp [natDecRev] at hch
    | succ m =>
      intro ch hch
      simp only [natDecRev] at hch
      rcases List.mem_cons.mp hch with hc | hc
      · subst hc; exact digitChar_isDigit _
      · exact ih ((m + 1) / 10) (Nat.div_lt_self (Nat.succ_pos m) (by decide)) ch hc

/-- Every character of the decimal rendering is a decimal digit. -/
theorem natDec_digits (n : Nat) : ∀ ch ∈ (natDec n).data, ch.isDigit = true := by
  unfold natDec
  split
  · intro ch hch
    simp at hch
    subst hch
    decide
  · intro ch hch
    exact natDecRev_digits n ch (List.mem_reverse.mp hch)

/-- The zero-padded fraction is exactly 4 characters long. -/
theorem pad4_length (n : Nat) : (pad4 n).length = 4 := rfl

/-- Every character of the zero-padded fraction is a decimal digit. -/
theorem pad4_digits (n : Nat) : ∀ ch ∈ (pad4 n).data, ch.isDigit = true := by
  intro ch hch
  have h2 : ch ∈ [digitChar (n / 1000), digitChar (n / 100),
      digitChar (n / 10), digitChar n] := hch
  simp only [List.mem_cons, List.not_mem_nil, or_false] at h2
  rcases h2 with hc | hc | hc | hc <;> (subst hc; exact digitChar_isDigit _)

/-- C5: the latency field of the req_served record is the decimal
rendering of a non-negative latency in milliseconds with exactly 4 digit
characters after the decimal point, followed by " ms". -/
theorem c5_latency_format (name : String) (reqidf : Resolver) (h : Handler)
    (r : Request) (startNs nowNs : Nat) (reqID : String) (req2 : Request)
    (hres : reqidf r.ctx = Except.ok reqID)
    (hret : (h r).result = Except.ok req2) :
    ∃ (served : LogEntry) (frac : String),
      (NewGlogrusWithReqId name reqidf h r startNs nowNs).trace.getLast? =
        some (TraceEv.log served) ∧
      served.event = "req_served" ∧
      fieldOf served ("latency") =
        some (FieldVal.str
          (natDec (latE4 (nowNs - startNs) / 10000) ++ "." ++ frac ++ " ms")) ∧
      frac.length = 4 ∧
      (∀ ch ∈ frac.data, ch.isDigit = true) ∧
      (∀ ch ∈ (natDec (latE4 (nowNs - startNs) / 10000)).data, ch.isDigit = true) ∧
      0 ≤ (latE4 (nowNs - startNs) : ℚ) / (10000 : ℚ) := by
  refine ⟨{ level := Level.info,
            event := "req_served",
            fields := servedFields reqID
              ((runActs wrapWriter (h r).acts).maybeWriteHeader).status
              req2 (nowNs - startNs) name },
          pad4 (latE4 (nowNs - startNs) % 10000),
          ?_, rfl, rfl, pad4_length _, pad4_digits _, natDec_digits _, by positivity⟩
  simp only [NewGlogrusWithReqId, hres, hret]
  rfl

/-- Witness for C5 at a concrete resolver, handler, request and times. -/
theorem c5_latency_format_witness :
    ∃ (served : LogEntry) (frac : String),
      (NewGlogrusWithReqId ("my-app") emptyRequestId wHandler404 wReq 0 123456).trace.getLast? =
        some (TraceEv.log served) ∧
      served.event = "req_served" ∧
      fieldOf served ("latency") =
        some (FieldVal.str
          (natDec (latE4 (123456 - 0) / 10000) ++ "." ++ frac ++ " ms")) ∧
      frac.length = 4 ∧
      (∀ ch ∈ frac.data, ch.isDigit = true) ∧
      (∀ ch ∈ (natDec (latE4 (123456 - 0) / 10000)).data, ch.isDigit = true) ∧
      0 ≤ (latE4 (123456 - 0) : ℚ) / (10000 : ℚ) :=
  c5_latency_format ("my-app") emptyRequestId wHandler404 wReq 0 123456 ("") wReq rfl rfl

/-- Both records of a normal run carry the resolved request id. -/
theorem reqId_in_both (name : String) (reqidf : Resolver) (h : Handler)
    (r : Request) (startNs nowNs : Nat) (reqID : String) (req2 : Request)
    (hres : reqidf r.ctx = Except.ok reqID)
    (hret : (h r).result = Except.ok req2) :
    ∃ e1 e2 : LogEntry,
      logsOf (NewGlogrusWithReqId name reqidf h r startNs nowNs).trace = [e1, e2] ∧
      fieldOf e1 ("req_id") = some (FieldVal.str reqID) ∧
      fieldOf e2 ("req_id") = some (FieldVal.str reqID) := by
  refine ⟨{ level := Level.info, event := "req_start", fields := startFields reqID r },
          { level := Level.info,
            event := "req_served",
            fields := servedFields reqID
              ((runActs wrapWriter (h r).acts).maybeWriteHeader).status
              req2 (nowNs - startNs) name },
          ?_, rfl, rfl⟩
  simp only [NewGlogrusWithReqId, hres, hret]
  rfl

/-- C6: the req_id field is identical between the req_start and
req_served records and equals the resolver output on the request
context; with the default constructor it is the empty string. -/
theorem c6_req_id (name : String) (reqidf : Resolver) (h : Handler)
    (r : Request) (startNs nowNs : Nat) (reqID : String) (req2 : Request)
    (hres : reqidf r.ctx = Except.ok reqID)
    (hret : (h r).result = Except.ok req2) :
    (∃ e1 e2 : LogEntry,
      logsOf (NewGlogrusWithReqId name reqidf h r startNs nowNs).trace = [e1, e2] ∧
      fieldOf e1 ("req_id") = some (FieldVal.str reqID) ∧
      fieldOf e2 ("req_id") = some (FieldVal.str reqID)) ∧
    (∃ e1 e2 : LogEntry,
      logsOf (NewGlogrus name h r startNs nowNs).trace = [e1, e2] ∧
      fieldOf e1 ("req_id") = some (FieldVal.str ("")) ∧
      fieldOf e2 ("req_id") = some (FieldVal.str (""))) :=
  ⟨reqId_in_both name reqidf h r startNs nowNs reqID req2 hres hret,
   reqId_in_both name emptyRequestId h r startNs nowNs ("") req2 rfl hret⟩

/-- Witness for C6 at a concrete resolver returning "req-123". -/
theorem c6_req_id_witness :
    (∃ e1 e2 : LogEntry,
      logsOf (NewGlogrusWithReqId ("my-app") (fun _ => Except.ok ("req-123"))
        wHandler404 wReq 0 5).trace = [e1, e2] ∧
      fieldOf e1 ("req_id") = some (FieldVal.str ("req-123")) ∧
      fieldOf e2 ("req_id") = some (FieldVal.str ("req-123"))) ∧
    (∃ e1 e2 : LogEntry,
      logsOf (NewGlogrus ("my-app") wHandler404 wReq 0 5).trace = [e1, e2] ∧
      fieldOf e1 ("req_id") = some (FieldVal.str ("")) ∧
      fieldOf e2 ("req_id") = some (FieldVal.str (""))) :=
  c6_req_id ("my-app") (fun _ => Except.ok ("req-123")) wHandler404 wReq 0 5
    "req-123" wReq rfl rfl

/-- C7: the middleware has no error handling: the failure of a failing resolver
propagates untouched with nothing logged, the failure of a failing
handler propagates with no req_served record, and the handler is never
invoked more than once (no retry). -/
theorem c7_no_error_handling (name : String) (reqidf : Resolver) (h : Handler)
    (r : Request) (startNs nowNs : Nat) :
    (∀ err, reqidf r.ctx = Except.error err →
      (NewGlogrusWithReqId name reqidf h r startNs nowNs).result = Except.error err ∧
      (NewGlogrusWithReqId name reqidf h r startNs nowNs).trace = []) ∧
    (∀ reqID err, reqidf r.ctx = Except.ok reqID →
        (h r).result = Except.error err →
      (NewGlogrusWithReqId name reqidf h r startNs nowNs).result = Except.error err ∧
      countEvent (logsOf (NewGlogrusWithReqId name reqidf h r startNs nowNs).trace)
          "req_served" = 0 ∧
      countCalls (NewGlogrusWithReqId name reqidf h r startNs nowNs).trace = 1) ∧
    countCalls (NewGlogrusWithReqId name reqidf h r startNs nowNs).trace ≤ 1 := by
  refine ⟨?_, ?_, ?_⟩
  · intro err hres
    simp [NewGlogrusWithReqId, hres]
  · intro reqID err hres hret
    simp [NewGlogrusWithReqId, hres, hret]
    exact ⟨rfl, rfl⟩
  · cases hres : reqidf r.ctx with
    | error err =>
      simp only [NewGlogrusWithReqId, hres]
      exact Nat.zero_le 1
    | ok reqID =>
      cases hret : (h r).result with
      | error e =>
        simp only [NewGlogrusWithReqId, hres, hret]
        exact Nat.le_refl 1
      | ok req2 =>
        simp only [NewGlogrusWithReqId, hres, hret]
        exact Nat.le_refl 1

/-- A resolver that terminates abnormally, for the C7 witness. -/
def wFailResolver : Resolver := fun _ => Except.error ("resolver panic")

/-- A handler that terminates abnormally, for the C7 witness. -/
def wFailHandler : Handler := fun _ =>
  { acts := [], result := Except.error ("handler panic") }

/-- Witness for C7: a concrete failing resolver propagates its failure,
and a concrete failing handler is invoked exactly once with its failure
propagated. -/
theorem c7_no_error_handling_witness :
    ((NewGlogrusWithReqId ("my-app") wFailResolver wHandler404 wReq 0 5).result =
      Except.error ("resolver panic") ∧
     (NewGlogrusWithReqId ("my-app") wFailResolver wHandler404 wReq 0 5).trace = []) ∧
    ((NewGlogrusWithReqId ("my-app") emptyRequestId wFailHandler wReq 0 5).result =
      Except.error ("handler panic") ∧
     countCalls (NewGlogrusWithReqId ("my-app") emptyRequestId wFailHandler wReq 0 5).trace = 1) :=
  ⟨(c7_no_error_handling ("my-app") wFailResolver wHandler404 wReq 0 5).1
      "resolver panic" rfl,
   ⟨((c7_no_error_handling ("my-app") emptyRequestId wFailHandler wReq 0 5).2.1
      "" "handler panic" rfl rfl).1,
    ((c7_no_error_handling ("my-app") emptyRequestId wFailHandler wReq 0 5).2.1
      "" "handler panic" rfl rfl).2.2⟩⟩

/-- C10: the method, uri and remote fields of the req_served record are read
from the request object as the handler left it; when the handler leaves
them unchanged, they coincide with the fields of the req_start record. -/
theorem c10_fields_read_after_handler (name : String) (reqidf : Resolver)
    (h : Handler) (r : Request) (startNs nowNs : Nat) (reqID : String)
    (req2 : Request)
    (hres : reqidf r.ctx = Except.ok reqID)
    (hret : (h r).result = Except.ok req2) :
    (∃ served : LogEntry,
      (NewGlogrusWithReqId name reqidf h r startNs nowNs).trace.getLast? =
        some (TraceEv.log served) ∧
      fieldOf served ("method") = some (FieldVal.str req2.method) ∧
      fieldOf served ("uri") = some (FieldVal.str req2.requestURI) ∧
      fieldOf served ("remote") = some (FieldVal.str req2.remoteAddr)) ∧
    (req2.method = r.method → req2.requestURI = r.requestURI →
     req2.remoteAddr = r.remoteAddr →
      ∃ e1 e2 : LogEntry,
        logsOf (NewGlogrusWithReqId name reqidf h r startNs nowNs).trace = [e1, e2] ∧
        fieldOf e1 ("method") = fieldOf e2 ("method") ∧
        fieldOf e1 ("uri") = fieldOf e2 ("uri") ∧
        fieldOf e1 ("remote") = fieldOf e2 ("remote")) := by
  constructor
  · refine ⟨{ level := Level.info,
              event := "req_served",
              fields := servedFields reqID
                ((runActs wrapWriter (h r).acts).maybeWriteHeader).status
                req2 (nowNs - startNs) name },
            ?_, rfl, rfl, rfl⟩
    simp only [NewGlogrusWithReqId, hres, hret]
    rfl
  · intro h1 h2 h3
    refine ⟨{ level := Level.info, event := "req_start", fields := startFields reqID r },
            { level := Level.info,
              event := "req_served",
              fields := servedFields reqID
                ((runActs wrapWriter (h r).acts).maybeWriteHeader).status
                req2 (nowNs - startNs) name },
            ?_, ?_, ?_, ?_⟩
    · simp only [NewGlogrusWithReqId, hres, hret]
      rfl
    · change some (FieldVal.str r.method) = some (FieldVal.str req2.method)
      rw [h1]
    · change some (FieldVal.str r.requestURI) = some (FieldVal.str req2.requestURI)
      rw [h2]
    · change some (FieldVal.str r.remoteAddr) = some (FieldVal.str req2.remoteAddr)
      rw [h3]

/-- Witness for C10: the concrete handler leaves the request unchanged. -/
theorem c10_fields_read_after_handler_witness :
    (∃ served : LogEntry,
      (NewGlogrusWithReqId ("my-app") emptyRequestId wHandler404 wReq 0 5).trace.getLast? =
        some (TraceEv.log served) ∧
      fieldOf served ("method") = some (FieldVal.str wReq.method) ∧
      fieldOf served ("uri") = some (FieldVal.str wReq.requestURI) ∧
      fieldOf served ("remote") = some (FieldVal.str wReq.remoteAddr)) ∧
    (wReq.method = wReq.method → wReq.requestURI = wReq.requestURI →
     wReq.remoteAddr = wReq.remoteAddr →
      ∃ e1 e2 : LogEntry,
        logsOf (NewGlogrusWithReqId ("my-app") emptyRequestId wHandler404 wReq 0 5).trace =
          [e1, e2] ∧
        fieldOf e1 ("method") = fieldOf e2 ("method") ∧
        fieldOf e1 ("uri") = fieldOf e2 ("uri") ∧
        fieldOf e1 ("remote") = fieldOf e2 ("remote")) :=
  c10_fields_read_after_handler ("my-app") emptyRequestId wHandler404 wReq 0 5
    "" wReq rfl rfl

end Glogrus
